import Mathlib

/-!
Verification of the aead/s3 test-support library.

Strings from the Go source are modelled as lists of characters
(`GoStr`); Go `int64` values are modelled as `Int` with explicit
two-complement wrapping (`wrap64`) at every operation that can
overflow.  Fallible Go functions returning `(T, error)` are modelled
with `Option`/pairs carrying the error value.
-/

/-- A Go string, modelled as its list of characters.  The Go code only
manipulates ASCII data, where bytes and runes coincide. -/
abbrev GoStr := List Char

/-- A Go `error` value, identified by its message. -/
abbrev GoErr := String

/-- Two-complement wrapping into the `int64` range, the semantics of
Go arithmetic on `int64`. -/
def wrap64 (x : Int) : Int := (x + 2 ^ 63) % 2 ^ 64 - 2 ^ 63

/-- Go `strconv.ParseInt(s, 10, 64)`: an optional single sign followed
by at least one decimal digit, rejected when the value falls outside
the `int64` range.  `none` models a non-nil error (Go also returns a
clamped value on a range error, but every caller in this code base
checks the error before using the value). -/
def parseInt64 (s : GoStr) : Option Int :=
  match s with
  | [] => none
  | c :: rest =>
    let neg : Bool := c = '-'
    let digits : GoStr := if c = '-' ∨ c = '+' then rest else c :: rest
    if digits.isEmpty then none
    else if digits.all Char.isDigit then
      let n : Nat := digits.foldl (fun a d => 10 * a + (d.toNat - 48)) 0
      let v : Int := if neg then -(n : Int) else (n : Int)
      if -(2 ^ 63) ≤ v ∧ v ≤ 2 ^ 63 - 1 then some v else none
    else none

/-- Go `strings.HasSuffix s suffix`. -/
def hasSuffix (s suffix : GoStr) : Bool :=
  decide (suffix.length ≤ s.length) &&
    (s.drop (s.length - suffix.length) == suffix)

/-- Go `strings.ToUpper` (the source only feeds it ASCII data). -/
def goToUpper (s : GoStr) : GoStr := s.map Char.toUpper

/-- Method Set of the `sizeValue` flag type, `s3.go` lines 27-63:
selects the first matching suffix of the upper-cased input among `GB`,
`MB`, `KB`, `B` (in the order the Go `switch` evaluates its cases),
parses the remaining prefix of the original string with
`strconv.ParseInt`, multiplies by the corresponding power of 1024 with
`int64` wrapping, and negates (again with `int64` wrapping) a negative
product.  `none` models the returned parse error, in which case the
stored value is not overwritten. -/
def sizeValueSet (s : GoStr) : Option Int :=
  let upper := goToUpper s
  let parsed : Option Int × Int :=
    if hasSuffix upper ['G', 'B'] then
      (parseInt64 (s.take (s.length - 2)), 1024 ^ 3)
    else if hasSuffix upper ['M', 'B'] then
      (parseInt64 (s.take (s.length - 2)), 1024 ^ 2)
    else if hasSuffix upper ['K', 'B'] then
      (parseInt64 (s.take (s.length - 2)), 1024)
    else if hasSuffix upper ['B'] then
      (parseInt64 (s.take (s.length - 1)), 1)
    else (parseInt64 s, 1)
  match parsed.1 with
  | none => none
  | some n =>
    let v := wrap64 (n * parsed.2)
    some (if v < 0 then wrap64 (-v) else v)

/-- State transition of a `sizeValue`: Go stores the new value in the
pointee only after the parse error has been checked, so on error the
previous value survives.  Returns the stored value and whether Set
returned a non-nil error. -/
def sizeValueSetState (s : GoStr) (old : Int) : Int × Bool :=
  match sizeValueSet s with
  | none => (old, true)
  | some v => (v, false)

/-- Case-insensitive suffix test, the reading of the spec sentence
"integer suffixed with B/KB/MB/GB, case-insensitive". -/
def endsWithCI (s t : GoStr) : Bool :=
  decide (t.length ≤ s.length) &&
    (goToUpper (s.drop (s.length - t.length)) == t)

/-- The size parser as the (amended) spec words it: a plain decimal
integer, or a decimal integer with a case-insensitive suffix `B`,
`KB`, `MB` or `GB` (multipliers 1, 1024, 1024^2, 1024^3), the product
taken with `int64` wrapping and a negative product replaced by its
`int64`-wrapped negation. -/
def specSizeParse (s : GoStr) : Option Int :=
  let numAndMult : GoStr × Int :=
    if endsWithCI s ['G', 'B'] then (s.take (s.length - 2), 1024 ^ 3)
    else if endsWithCI s ['M', 'B'] then (s.take (s.length - 2), 1024 ^ 2)
    else if endsWithCI s ['K', 'B'] then (s.take (s.length - 2), 1024)
    else if endsWithCI s ['B'] then (s.take (s.length - 1), 1)
    else (s, 1)
  (parseInt64 numAndMult.1).map fun n =>
    let v := wrap64 (n * numAndMult.2)
    if v < 0 then wrap64 (-v) else v

/-- The values the package-level flag variables hold after
`flag.Parse()` has read the command line (`-server`, `-access`,
`-secret`, `-insecure`, `-disableTLS`, `-size`, `-sizeMultipart`). -/
structure Flags where
  server : String
  access : String
  secret : String
  insecure : Bool
  disableTLS : Bool
  size : Int
  multipartSize : Int
deriving DecidableEq

/-- The process environment as seen through `os.LookupEnv`: `none`
means the variable is not exported, `some v` means it is exported with
value `v` (possibly empty). -/
structure Env where
  serverEndpoint : Option String
  accessKey : Option String
  secretKey : Option String
deriving DecidableEq

/-- The package-level mutable state of `s3.go`: the exported
configuration variables plus the private `parsed` / `parseErr`
resolution cache. -/
structure S3State where
  Endpoint : String
  AccessKey : String
  SecretKey : String
  Insecure : Bool
  NoTLS : Bool
  Size : Int
  MultipartSize : Int
  parsed : Bool
  parseErr : Option GoErr
deriving DecidableEq

def endpointErrMsg : GoErr :=
  "No server endpoint is provided and also no SERVER_ENDPOINT env. variable is exported"

def accessErrMsg : GoErr :=
  "No access key is provided and also no ACCESS_KEY env. variable is exported"

def secretErrMsg : GoErr :=
  "No secret key is provided and also no SECRET_KEY env. variable is exported"

/-- Lines 141-146 of `s3.go`: a zero size resolved from the flags is
replaced by its default (32 KiB for Size, 65 MiB for MultipartSize). -/
def setDefaultSizes (st : S3State) : S3State :=
  let st1 := if st.Size = 0 then { st with Size := 32 * 1024 } else st
  if st1.MultipartSize = 0 then { st1 with MultipartSize := 65 * 1024 * 1024 } else st1

/-- The secret-key block of Parse followed by the fall-through to the
size defaults and the final `return parseErr`. -/
def resolveSecretKey (env : Env) (st : S3State) : S3State × Option GoErr :=
  if st.SecretKey = "" then
    match env.secretKey with
    | none =>
      let st := { st with SecretKey := "", parseErr := some secretErrMsg }
      (st, some secretErrMsg)
    | some v =>
      let st := setDefaultSizes { st with SecretKey := v }
      (st, st.parseErr)
  else
    let st := setDefaultSizes st
    (st, st.parseErr)

/-- The access-key block of Parse. -/
def resolveAccessKey (env : Env) (st : S3State) : S3State × Option GoErr :=
  if st.AccessKey = "" then
    match env.accessKey with
    | none =>
      let st := { st with AccessKey := "", parseErr := some accessErrMsg }
      (st, some accessErrMsg)
    | some v => resolveSecretKey env { st with AccessKey := v }
  else resolveSecretKey env st

/-- The endpoint block of Parse. -/
def resolveEndpoint (env : Env) (st : S3State) : S3State × Option GoErr :=
  if st.Endpoint = "" then
    match env.serverEndpoint with
    | none =>
      let st := { st with Endpoint := "", parseErr := some endpointErrMsg }
      (st, some endpointErrMsg)
    | some v => resolveAccessKey env { st with Endpoint := v }
  else resolveAccessKey env st

/-- Function Parse from `s3.go`, lines 103-149.  The `flags` argument
holds the values `flag.Parse()` assigns to the package variables on
the first invocation; `env` is the process environment.  Later
invocations (`parsed = true`) return the cached `parseErr` without
touching either input. -/
def Parse (flags : Flags) (env : Env) (st : S3State) : S3State × Option GoErr :=
  if st.parsed then (st, st.parseErr)
  else
    resolveEndpoint env
      { st with
        parsed := true
        Endpoint := flags.server
        AccessKey := flags.access
        SecretKey := flags.secret
        Insecure := flags.insecure
        NoTLS := flags.disableTLS
        Size := flags.size
        MultipartSize := flags.multipartSize }

/-- Concrete flag values used by the witnesses: all three required
values set, sizes left at zero. -/
def wFlags : Flags := ⟨"srv", "ak", "sk", false, false, 0, 0⟩

/-- Concrete flag values used by the witnesses: everything empty. -/
def wFlagsEmpty : Flags := ⟨"", "", "", false, false, 0, 0⟩

/-- Concrete flag values used by the witnesses: no server, but access
key, secret key and both sizes set. -/
def wFlagsNoServer : Flags := ⟨"", "srv-ak", "srv-sk", false, false, 7, 9⟩

/-- Concrete environment used by the witnesses: nothing exported. -/
def wEnvNone : Env := ⟨none, none, none⟩

/-- Concrete environment used by the witnesses: all three variables
exported. -/
def wEnvFull : Env := ⟨some ("env-srv"), some ("env-ak"), some ("env-sk")⟩

/-- The package state before the first call to Parse: `parsed` is
false and `parseErr` is nil (the zero values of the Go globals). -/
def wStart : S3State := ⟨"", "", "", false, false, 0, 0, false, none⟩

/-- The state `Parse wFlags wEnvNone wStart` resolves to. -/
def wResolved : S3State :=
  ⟨"srv", "ak", "sk", false, false, 32 * 1024, 65 * 1024 * 1024, true, none⟩

/-- The state `Parse wFlagsNoServer wEnvNone wStart` fails into. -/
def wStErr : S3State :=
  ⟨"", "srv-ak", "srv-sk", false, false, 7, 9, true, some endpointErrMsg⟩

/-- What a cleanup callback returned by MakeBucket does when invoked:
either nothing (the bucket pre-existed) or one `remove(bucket)` call
with a `t.Errorf` report when it fails. -/
inductive CleanupAction where
  | noop
  | removeAndReport (bucket : String)
deriving DecidableEq

/-- The externally visible effect of a test helper on a `testing.TB`:
the messages reported through `t.Errorf` (non-fatal) and through
`t.Fatalf` (aborting), if any. -/
structure TestLog where
  errorf : List String
  fatalf : Option String
deriving DecidableEq

/-- Function MakeBucket from `s3.go`, lines 163-179.  The call to the
`exists` argument is modelled by its `(bool, error)` result and the
call `make(bucket, "")` by its error result; the returned callback is
`none` when the Go function returns a nil function. -/
def MakeBucket (bucket : String) (existsRes : Bool × Option GoErr)
    (makeRes : Option GoErr) : Option CleanupAction × Option GoErr :=
  match existsRes with
  | (_, some err) => (none, some err)
  | (false, none) =>
    match makeRes with
    | some err => (none, some err)
    | none => (some (.removeAndReport bucket), none)
  | (true, none) => (some .noop, none)

/-- Running a cleanup callback against a remove function (modelled by
its per-bucket result): returns the list of buckets `remove` was
called on and the test log. -/
def runCleanup (c : CleanupAction) (remove : String → Option GoErr) :
    List String × TestLog :=
  match c with
  | .noop => ([], ⟨[], none⟩)
  | .removeAndReport b =>
    match remove b with
    | some e => ([b], ⟨["Failed to remove bucket " ++ b ++ ": " ++ e], none⟩)
    | none => ([b], ⟨[], none⟩)

/-- Function RemoveObject from `s3.go`, lines 207-211: one call to
`remove(bucket, object)`, reporting a failure through `t.Errorf`.
Returns the calls made to `remove` and the test log. -/
def RemoveObject (bucket object : String) (removeRes : Option GoErr) :
    List (String × String) × TestLog :=
  ([(bucket, object)],
   match removeRes with
   | some e =>
     ⟨["Failed to remove object " ++ bucket ++ "/" ++ object ++ ": " ++ e], none⟩
   | none => ⟨[], none⟩)

/-- Function RemoveBucket from `s3.go`, lines 217-221: one call to
`remove(bucket)`, reporting a failure through `t.Errorf`. -/
def RemoveBucket (bucket : String) (removeRes : Option GoErr) :
    List String × TestLog :=
  ([bucket],
   match removeRes with
   | some e => ⟨["Failed to remove bucket " ++ bucket ++ ": " ++ e], none⟩
   | none => ⟨[], none⟩)

/-- An SSE-C key descriptor as the tests construct them: either
derived by `encrypt.DefaultPBKDF` from a password and a salt, or a raw
32-byte key built with `encrypt.NewSSEC`. -/
inductive SSEKey where
  | pbkdf (password salt : String)
  | ssec (key : List Nat)
deriving DecidableEq

/-- Helper `mustNewSSEC` from the copy test file: wraps a raw key
(both table keys have the 32 bytes `NewSSEC` requires, so the panic
branch is unreachable there). -/
def mustNewSSEC (key : List Nat) : SSEKey := .ssec key

/-- Go `make([]byte, 32)`: 32 zero bytes. -/
def zeroKey32 : List Nat := List.replicate 32 0

/-- The bytes of an ASCII string, as Go `[]byte(s)`. -/
def stringBytes (s : String) : List Nat := s.toList.map Char.toNat

/-- One entry of the key-rotation table: the source key, the
destination key and whether the copy is expected to fail. -/
structure KeyRotationTest where
  Old : Option SSEKey
  New : Option SSEKey
  shouldFail : Bool

/-- The `customerKeyRotationTests` table (order-dependent), with all
seven entries active: 0 rotates from a PBKDF key to a raw key, 1 keeps
equal keys, 2 removes encryption, 3 adds encryption, and 4-6 supply a
source key that no longer matches the stored key and must fail. -/
def customerKeyRotationTests : List KeyRotationTest :=
  [⟨some (.pbkdf ("my-passowrd") ("my-salt")), some (mustNewSSEC zeroKey32), false⟩,
   ⟨some (mustNewSSEC zeroKey32), some (mustNewSSEC zeroKey32), false⟩,
   ⟨some (mustNewSSEC zeroKey32), none, false⟩,
   ⟨none, some (mustNewSSEC (stringBytes ("32-byte SSE-C secret encryption."))), false⟩,
   ⟨none, some (mustNewSSEC zeroKey32), true⟩,
   ⟨none, none, true⟩,
   ⟨some (mustNewSSEC zeroKey32), some (mustNewSSEC zeroKey32), true⟩]

/-- Modelled from the spec: the S3 server is not part of this
repository, only the tests that drive it are.  A stored object holds
its plaintext and the customer key protecting it (`none` means stored
without SSE-C). -/
structure StoredObject where
  data : List Nat
  sseKey : Option SSEKey

/-- Modelled from the spec: "Key rotation: decrypting with the
original customer key and re-encrypting with a new customer key (or
removing/adding encryption) preserves plaintext across the copy; using
a wrong or mismatched key fails the copy."  Copying an object onto
itself succeeds exactly when the supplied source key matches the
stored key, leaving the plaintext intact under the new key; on failure
the stored object is unchanged. -/
def CopyObject (obj : StoredObject) (srcKey dstKey : Option SSEKey) :
    Option StoredObject :=
  if srcKey = obj.sseKey then some { data := obj.data, sseKey := dstKey } else none

/-- Modelled from the spec: a get succeeds with the stored plaintext
exactly when the supplied key matches the stored key. -/
def GetObject (obj : StoredObject) (key : Option SSEKey) : Option (List Nat) :=
  if key = obj.sseKey then some obj.data else none

/-- The loop of `TestCustomerKeyRotation`: each entry copies the
object onto itself with the old and new keys of the entry; an outcome
that contradicts the `shouldFail` flag aborts the test (`none`); after
each expected success the object is downloaded under the new key.
Returns the list of downloaded contents. -/
def keyRotationLoop (obj : StoredObject) :
    List KeyRotationTest → Option (List (List Nat))
  | [] => some []
  | t :: rest =>
    match CopyObject obj t.Old t.New, t.shouldFail with
    | none, true => keyRotationLoop obj rest
    | none, false => none
    | some _, true => none
    | some objNew, false =>
      match GetObject objNew t.New with
      | none => none
      | some content => (keyRotationLoop objNew rest).map (content :: ·)

/-- Scenario of `TestCustomerKeyRotation`: the object is first
uploaded under the old key of the first table entry, then the table is
run in order. -/
def runKeyRotation (data : List Nat) : Option (List (List Nat)) :=
  match customerKeyRotationTests with
  | [] => some []
  | t0 :: _ =>
    keyRotationLoop { data := data, sseKey := t0.Old } customerKeyRotationTests

/-- Go slice expression `data[lo : hi]`: panics (modelled as `none`)
unless `0 ≤ lo ≤ hi ≤ len(data)`. -/
def goSlice (data : List Nat) (lo hi : Int) : Option (List Nat) :=
  if 0 ≤ lo ∧ lo ≤ hi ∧ hi ≤ (data.length : Int) then
    some ((data.drop lo.toNat).take (hi - lo).toNat)
  else none

/-- The content comparison at the end of each loop iteration of
`testEncryptedRangeGet` (sse-get_test.go, lines 128-136): the local
`start` is saved before the `test.Start *= -1` statement, and that
statement writes only to the loop-local copy of the table entry and is
never read again, so the comparison slice
`data[start : start+len(content)]` always uses the original, possibly
negative, start.  `none` models the panic of an out-of-range slice,
otherwise the result of `bytes.Equal`. -/
def rangeGetCheck (testStart : Int) (data content : List Nat) : Option Bool :=
  let start := testStart
  (goSlice data start (start + content.length)).map fun slice => content == slice

/-- The `encryptedRangeGetTests` table of `(Start, End)` range pairs
from the standalone version of the range-get test. -/
def encryptedRangeGetTests : List (Int × Int) :=
  [(0, 5 * 1024 * 1024), (0, -(1 * 1024 * 1024)), (1 * 1024 * 1024, 0),
   (0, 0), (0, 32 * 1024), (17564, 65 * 1024), (684937, 0), (88579, 88580)]

/-- Modelled from the spec: "Range correctness: for a stored encrypted
object of size N, a byte-range request [start, end) returns exactly
the requested slice of the original plaintext, independent of the
chosen encryption."  The server returns the requested plaintext slice
when the supplied key matches the stored key. -/
def GetObjectRange (obj : StoredObject) (key : Option SSEKey)
    (start stop : Int) : Option (List Nat) :=
  if key = obj.sseKey then goSlice obj.data start stop else none

/-- Upper-casing commutes with taking a suffix, so the Go test
`HasSuffix(ToUpper s, t)` is the case-insensitive suffix test. -/
theorem hasSuffix_goToUpper (s t : GoStr) :
    hasSuffix (goToUpper s) t = endsWithCI s t := by
  simp [hasSuffix, endsWithCI, goToUpper, List.map_drop]

theorem sizeValueSet_eq_specSizeParse_aux (s : GoStr) :
    sizeValueSet s = specSizeParse s := by
  unfold sizeValueSet specSizeParse
  simp only [hasSuffix_goToUpper]
  split_ifs <;> cases parseInt64 (s.take (s.length - 2)) <;>
    cases parseInt64 (s.take (s.length - 1)) <;> cases parseInt64 s <;> simp

theorem wrap64_bounds (x : Int) : -(2 ^ 63) ≤ wrap64 x ∧ wrap64 x < 2 ^ 63 := by
  unfold wrap64
  have h1 := Int.emod_nonneg (x + 2 ^ 63) (by norm_num : (2 ^ 64 : Int) ≠ 0)
  have h2 := Int.emod_lt_of_pos (x + 2 ^ 63) (by norm_num : (0 : Int) < 2 ^ 64)
  omega

theorem wrap64_eq_self (x : Int) (h1 : -(2 ^ 63) ≤ x) (h2 : x < 2 ^ 63) :
    wrap64 x = x := by
  unfold wrap64
  rw [Int.emod_eq_of_lt (by omega) (by omega)]
  omega

theorem normalized_nonneg_or_min (w : Int) (hw : -(2 ^ 63) ≤ w ∧ w < 2 ^ 63) :
    0 ≤ (if w < 0 then wrap64 (-w) else w) ∨
      (if w < 0 then wrap64 (-w) else w) = -(2 ^ 63) := by
  split_ifs with hneg
  · by_cases hmin : w = -(2 ^ 63)
    · right
      rw [hmin]
      decide
    · left
      rw [wrap64_eq_self (-w) (by omega) (by omega)]
      omega
  · left
    omega

theorem setDefaultSizes_eq (st : S3State) :
    setDefaultSizes st =
      { st with
        Size := if st.Size = 0 then 32 * 1024 else st.Size
        MultipartSize :=
          if st.MultipartSize = 0 then 65 * 1024 * 1024 else st.MultipartSize } := by
  cases st
  unfold setDefaultSizes
  split_ifs <;> simp_all

theorem resolveSecretKey_parsed_parseErr (env : Env) (st : S3State) :
    ((resolveSecretKey env st).1).parsed = st.parsed ∧
      ((resolveSecretKey env st).1).parseErr = (resolveSecretKey env st).2 := by
  unfold resolveSecretKey
  split_ifs <;> cases env.secretKey <;> simp_all [setDefaultSizes_eq]

theorem resolveAccessKey_parsed_parseErr (env : Env) (st : S3State) :
    ((resolveAccessKey env st).1).parsed = st.parsed ∧
      ((resolveAccessKey env st).1).parseErr = (resolveAccessKey env st).2 := by
  unfold resolveAccessKey
  split_ifs <;> cases env.accessKey <;>
    simp_all [resolveSecretKey_parsed_parseErr]

theorem resolveEndpoint_parsed_parseErr (env : Env) (st : S3State) :
    ((resolveEndpoint env st).1).parsed = st.parsed ∧
      ((resolveEndpoint env st).1).parseErr = (resolveEndpoint env st).2 := by
  unfold resolveEndpoint
  split_ifs <;> cases env.serverEndpoint <;>
    simp_all [resolveAccessKey_parsed_parseErr]

/-- After any call to Parse the `parsed` flag is set and the cached
`parseErr` equals the returned error. -/
theorem Parse_parsed_parseErr (flags : Flags) (env : Env) (st : S3State) :
    ((Parse flags env st).1).parsed = true ∧
      ((Parse flags env st).1).parseErr = (Parse flags env st).2 := by
  unfold Parse
  split_ifs with h
  · exact ⟨h, rfl⟩
  · constructor
    · rw [(resolveEndpoint_parsed_parseErr _ _).1]
    · exact (resolveEndpoint_parsed_parseErr _ _).2

/-- C1: Parse is idempotent.  Once a call to Parse has returned nil,
every later call returns nil again, returns the very same state (so
Endpoint, AccessKey, SecretKey, Insecure, NoTLS, Size and
MultipartSize are unchanged), and its result does not depend on the
flag or environment inputs (they are not re-read). -/
theorem parse_idempotent_after_nil (f : Flags) (e : Env) (st st' : S3State)
    (h : Parse f e st = (st', none)) (f2 : Flags) (e2 : Env) :
    Parse f2 e2 st' = (st', none) := by
  have h1 := Parse_parsed_parseErr f e st
  rw [h] at h1
  unfold Parse
  simp_all

theorem parse_idempotent_after_nil_witness :
    Parse wFlagsEmpty wEnvNone wResolved = (wResolved, none) :=
  parse_idempotent_after_nil wFlags wEnvNone wStart wResolved (by decide)
    wFlagsEmpty wEnvNone

/-- C8: Parse caches failure.  If a first call to Parse returns a
non-nil error, every later call returns the same state and exactly the
same error whatever the flag and environment inputs are (so exporting
a missing environment variable afterwards never makes Parse succeed).
Moreover the early return leaves everything after the failing value
unresolved, whichever of the three values failed: on any failing first
call the secret key and both sizes keep their raw flag values (the
secret key is env-resolved only when all three resolutions succeed,
and a secret-key failure rewrites it with its own empty flag value),
and when the failing value is the endpoint the access key keeps its
raw flag value as well. -/
theorem parse_caches_failure (f : Flags) (e : Env) (st st' : S3State) (er : GoErr)
    (hp : st.parsed = false) (he : st.parseErr = none)
    (h : Parse f e st = (st', some er)) :
    (∀ f2 e2, Parse f2 e2 st' = (st', some er)) ∧
      st'.SecretKey = f.secret ∧
      st'.Size = f.size ∧
      st'.MultipartSize = f.multipartSize ∧
      (f.server = "" → e.serverEndpoint = none → st'.AccessKey = f.access) := by
  constructor
  · intro f2 e2
    have h1 := Parse_parsed_parseErr f e st
    rw [h] at h1
    unfold Parse
    simp_all
  · obtain ⟨es, ea, ek⟩ := e
    unfold Parse resolveEndpoint resolveAccessKey resolveSecretKey at h
    simp only [hp, Bool.false_eq_true, if_false] at h
    cases es <;> cases ea <;> cases ek <;>
      split_ifs at h <;>
      simp_all [setDefaultSizes_eq, Prod.mk.injEq] <;>
      obtain ⟨h1, h2⟩ := h <;> subst h1 <;> simp_all

theorem parse_caches_failure_witness :
    Parse wFlags wEnvFull wStErr = (wStErr, some endpointErrMsg) ∧
      wStErr.SecretKey = wFlagsNoServer.secret ∧
      wStErr.AccessKey = wFlagsNoServer.access := by
  have H := parse_caches_failure wFlagsNoServer wEnvNone wStart wStErr
    endpointErrMsg (by decide) (by decide) (by decide)
  exact ⟨H.1 wFlags wEnvFull, H.2.1, H.2.2.2.2 (by decide) (by decide)⟩

/-- C2: on its first invocation Parse resolves endpoint, access key
and secret key by taking the flag value when non-empty and otherwise
the corresponding environment variable, returns nil exactly when each
of the three is non-empty in the flags or exported in the environment,
and any non-nil error is one of the three descriptive messages. -/
theorem parse_first_resolution (f : Flags) (e : Env) (st : S3State)
    (hp : st.parsed = false) (he : st.parseErr = none) :
    ((Parse f e st).2 = none ↔
      (f.server ≠ "" ∨ e.serverEndpoint ≠ none) ∧
        (f.access ≠ "" ∨ e.accessKey ≠ none) ∧
          (f.secret ≠ "" ∨ e.secretKey ≠ none)) ∧
      ((Parse f e st).2 = none →
        (Parse f e st).1.Endpoint =
            (if f.server = "" then e.serverEndpoint.getD ("") else f.server) ∧
          (Parse f e st).1.AccessKey =
              (if f.access = "" then e.accessKey.getD ("") else f.access) ∧
            (Parse f e st).1.SecretKey =
                (if f.secret = "" then e.secretKey.getD ("") else f.secret)) ∧
      ((Parse f e st).2 = none ∨ (Parse f e st).2 = some endpointErrMsg ∨
        (Parse f e st).2 = some accessErrMsg ∨ (Parse f e st).2 = some secretErrMsg) := by
  obtain ⟨es, ea, ek⟩ := e
  unfold Parse resolveEndpoint resolveAccessKey resolveSecretKey
  simp only [hp, Bool.false_eq_true, if_false]
  cases es <;> cases ea <;> cases ek <;>
    split_ifs <;> simp_all [setDefaultSizes_eq]

theorem parse_first_resolution_witness :
    ((Parse wFlagsEmpty wEnvFull wStart).2 = none ↔
      (wFlagsEmpty.server ≠ "" ∨ wEnvFull.serverEndpoint ≠ none) ∧
        (wFlagsEmpty.access ≠ "" ∨ wEnvFull.accessKey ≠ none) ∧
          (wFlagsEmpty.secret ≠ "" ∨ wEnvFull.secretKey ≠ none)) ∧
      ((Parse wFlagsEmpty wEnvFull wStart).2 = none →
        (Parse wFlagsEmpty wEnvFull wStart).1.Endpoint =
            (if wFlagsEmpty.server = "" then wEnvFull.serverEndpoint.getD ("")
             else wFlagsEmpty.server) ∧
          (Parse wFlagsEmpty wEnvFull wStart).1.AccessKey =
              (if wFlagsEmpty.access = "" then wEnvFull.accessKey.getD ("")
               else wFlagsEmpty.access) ∧
            (Parse wFlagsEmpty wEnvFull wStart).1.SecretKey =
                (if wFlagsEmpty.secret = "" then wEnvFull.secretKey.getD ("")
                 else wFlagsEmpty.secret)) ∧
      ((Parse wFlagsEmpty wEnvFull wStart).2 = none ∨
        (Parse wFlagsEmpty wEnvFull wStart).2 = some endpointErrMsg ∨
        (Parse wFlagsEmpty wEnvFull wStart).2 = some accessErrMsg ∨
        (Parse wFlagsEmpty wEnvFull wStart).2 = some secretErrMsg) :=
  parse_first_resolution wFlagsEmpty wEnvFull wStart (by decide) (by decide)

/-- C10: when a first call to Parse returns nil, Size and
MultipartSize are non-zero: a zero flag value is replaced by the
default (32*1024 for Size, 65*1024*1024 for MultipartSize) and a
non-zero flag value is kept.  Together with C1 the state never changes
afterwards, so this holds after any nil-returning call. -/
theorem parse_sizes_nonzero (f : Flags) (e : Env) (st : S3State)
    (hp : st.parsed = false) (h : (Parse f e st).2 = none) :
    (Parse f e st).1.Size ≠ 0 ∧ (Parse f e st).1.MultipartSize ≠ 0 ∧
      (f.size = 0 → (Parse f e st).1.Size = 32 * 1024) ∧
      (f.size ≠ 0 → (Parse f e st).1.Size = f.size) ∧
      (f.multipartSize = 0 → (Parse f e st).1.MultipartSize = 65 * 1024 * 1024) ∧
      (f.multipartSize ≠ 0 → (Parse f e st).1.MultipartSize = f.multipartSize) := by
  obtain ⟨es, ea, ek⟩ := e
  unfold Parse resolveEndpoint resolveAccessKey resolveSecretKey at h ⊢
  simp only [hp, Bool.false_eq_true, if_false] at h ⊢
  cases es <;> cases ea <;> cases ek <;>
    split_ifs at h ⊢ <;> simp_all [setDefaultSizes_eq] <;>
    split_ifs <;> simp_all

theorem parse_sizes_nonzero_witness :
    (Parse wFlags wEnvNone wStart).1.Size ≠ 0 ∧
      (Parse wFlags wEnvNone wStart).1.MultipartSize ≠ 0 ∧
      (wFlags.size = 0 → (Parse wFlags wEnvNone wStart).1.Size = 32 * 1024) ∧
      (wFlags.size ≠ 0 → (Parse wFlags wEnvNone wStart).1.Size = wFlags.size) ∧
      (wFlags.multipartSize = 0 →
        (Parse wFlags wEnvNone wStart).1.MultipartSize = 65 * 1024 * 1024) ∧
      (wFlags.multipartSize ≠ 0 →
        (Parse wFlags wEnvNone wStart).1.MultipartSize = wFlags.multipartSize) :=
  parse_sizes_nonzero wFlags wEnvNone wStart (by decide) (by decide)

/-- C3 (amended): `sizeValueSet` behaves as the spec describes except
that the product and the negation of a negative product are taken with
`int64` wrapping, so every stored value is nonnegative except that an
exact product of `-2^63` is stored unchanged (its `int64` negation
overflows back to itself). -/
theorem sizeValueSet_amended (s : GoStr) :
    sizeValueSet s = specSizeParse s ∧
      (∀ v : Int, sizeValueSet s = some v → 0 ≤ v ∨ v = -(2 ^ 63)) := by
  refine ⟨sizeValueSet_eq_specSizeParse_aux s, fun v h => ?_⟩
  unfold sizeValueSet at h
  simp only at h
  split at h
  · exact absurd h (by simp)
  · simp only [Option.some.injEq] at h
    subst h
    exact normalized_nonneg_or_min _ ⟨(wrap64_bounds _).1, (wrap64_bounds _).2⟩

theorem sizeValueSet_amended_witness :
    sizeValueSet ['3', '2', 'k', 'b'] = specSizeParse ['3', '2', 'k', 'b'] ∧
      (0 ≤ (32768 : Int) ∨ (32768 : Int) = -(2 ^ 63)) :=
  ⟨(sizeValueSet_amended (['3', '2', 'k', 'b'])).1,
    (sizeValueSet_amended (['3', '2', 'k', 'b'])).2 32768 (by decide)⟩

/-- C3 counterexample: on the input "-9223372036854775808" the parse
succeeds and the stored size is `-2^63`, a negative value, refuting
the claim that the stored size is always nonnegative (the absolute
value of the most negative `int64` overflows back to itself). -/
theorem sizeValueSet_min_int_counterexample :
    sizeValueSet
        ['-', '9', '2', '2', '3', '3', '7', '2', '0', '3', '6', '8', '5',
         '4', '7', '7', '5', '8', '0', '8'] = some (-(2 ^ 63)) ∧
      (-(2 ^ 63) : Int) < 0 := by decide

/-- C9: Set on a sizeValue is atomic on error: when Set returns a
non-nil error the previously stored value is untouched. -/
theorem sizeValueSet_atomic_on_error (s : GoStr) (old : Int)
    (h : (sizeValueSetState s old).2 = true) :
    (sizeValueSetState s old).1 = old := by
  cases hs : sizeValueSet s <;> simp [sizeValueSetState, hs] at h ⊢

theorem sizeValueSet_atomic_on_error_witness :
    (sizeValueSetState (['5', 'K']) 7).2 = true ∧
      (sizeValueSetState (['5', 'K']) 7).1 = 7 :=
  ⟨by decide, sizeValueSet_atomic_on_error (['5', 'K']) 7 (by decide)⟩

/-- C4: MakeBucket with a pre-existing bucket returns a no-op cleanup
(never calling remove) and nil error; with an absent bucket and a
successful make it returns a cleanup that calls remove on exactly that
bucket and nil error; and when exists or make fails it returns no
callback together with that error. -/
theorem makeBucket_cases (bucket : String) (e : GoErr) (ok : Bool)
    (mk : Option GoErr) (remove : String → Option GoErr) :
    (MakeBucket bucket (true, none) mk = (some .noop, none) ∧
      (runCleanup .noop remove).1 = []) ∧
      (MakeBucket bucket (false, none) none =
          (some (.removeAndReport bucket), none) ∧
        (runCleanup (.removeAndReport bucket) remove).1 = [bucket]) ∧
      MakeBucket bucket (ok, some e) mk = (none, some e) ∧
      MakeBucket bucket (false, none) (some e) = (none, some e) := by
  refine ⟨⟨rfl, rfl⟩, ⟨rfl, ?_⟩, ?_, rfl⟩
  · cases hrb : remove bucket <;> simp [runCleanup, hrb]
  · cases ok <;> rfl

/-- C7: RemoveObject and RemoveBucket call remove exactly once, never
call `t.Fatalf` (so a cleanup failure cannot abort or mask the primary
test outcome), and report through `t.Errorf` exactly when remove
returns a non-nil error. -/
theorem remove_helpers_best_effort (bucket object : String) (r : Option GoErr) :
    (RemoveObject bucket object r).1 = [(bucket, object)] ∧
      (RemoveObject bucket object r).2.fatalf = none ∧
      ((RemoveObject bucket object r).2.errorf ≠ [] ↔ r ≠ none) ∧
      (RemoveBucket bucket r).1 = [bucket] ∧
      (RemoveBucket bucket r).2.fatalf = none ∧
      ((RemoveBucket bucket r).2.errorf ≠ [] ↔ r ≠ none) := by
  cases r <;> simp [RemoveObject, RemoveBucket]

/-- C5: over the full seven-entry rotation table, every entry flagged
as succeeding does succeed and its download under the new key returns
exactly the uploaded plaintext (four successful rotations), and every
entry flagged `shouldFail` fails its copy; no outcome contradicts its
flag. -/
theorem customer_key_rotation_scenario (data : List Nat) :
    runKeyRotation data = some [data, data, data, data] := rfl

/-- C6 (amended): for a stored object with plaintext `data` and a
requested range `[start, stop)` with `0 ≤ start ≤ stop ≤ N`, the
accepted download is exactly `data[start:stop)` whatever the stored
encryption key is, and the test comparison accepts it — the comparison
indexes the plaintext with the original start for the returned length;
the absolute-value normalization of a negative start is written only
to the discarded loop-local copy and never used for indexing, and no
entry of the range table has a negative start. -/
theorem encrypted_range_get_ranges (data : List Nat) (key : Option SSEKey)
    (start stop : Int) (content : List Nat)
    (h0 : 0 ≤ start) (h1 : start ≤ stop) (h2 : stop ≤ (data.length : Int))
    (hget : GetObjectRange ⟨data, key⟩ key start stop = some content) :
    content = (data.drop start.toNat).take (stop - start).toNat ∧
      rangeGetCheck start data content = some true ∧
      encryptedRangeGetTests.all (fun t => decide (0 ≤ t.1)) = true := by
  have hslice :
      goSlice data start stop =
        some ((data.drop start.toNat).take (stop - start).toNat) := by
    unfold goSlice
    rw [if_pos ⟨h0, h1, h2⟩]
  unfold GetObjectRange at hget
  rw [if_pos rfl] at hget
  rw [hslice] at hget
  injection hget with hget
  subst hget
  refine ⟨rfl, ?_, by decide⟩
  unfold rangeGetCheck
  have hlen :
      ((((data.drop start.toNat).take (stop - start).toNat)).length : Int) =
        stop - start := by
    simp only [List.length_take, List.length_drop]
    omega
  rw [hlen]
  simp [show start + (stop - start) = stop from by ring, hslice]

theorem encrypted_range_get_ranges_witness :
    ([5, 9] : List Nat) =
        (([3, 5, 9] : List Nat).drop (1 : Int).toNat).take ((3 : Int) - 1).toNat ∧
      rangeGetCheck 1 [3, 5, 9] [5, 9] = some true ∧
      encryptedRangeGetTests.all (fun t => decide (0 ≤ t.1)) = true :=
  encrypted_range_get_ranges [3, 5, 9] none 1 3 [5, 9] (by decide) (by decide)
    (by decide) (by decide)

/-- C6 counterexample: with stored plaintext `[5, 7]` and the download
`[7]` for a requested start of `-1`, the comparison does not index the
plaintext at the absolute value 1 (which would compare equal): it
slices with the original negative start, which is out of range.  The
negative start is therefore not treated as its absolute value when
indexing the plaintext. -/
theorem range_get_negative_start_counterexample :
    rangeGetCheck (-1) [5, 7] [7] = none ∧
      rangeGetCheck 1 [5, 7] [7] = some true := by decide
